import Mathlib

/-!
Shallow embedding of the Water-Monitoring-Prototype Flask application
(`app.py`) for verification of its natural-language specification.

Conventions of the embedding:
* SQL tables become Lean lists of records inside a `DB` structure; column
  names keep the source's names.
* Integer columns (`INTEGER`) are modelled as `Int`; timestamps
  (`created_at`, `updated_at`) as `Nat` ticks; `DATE` columns as a `Date`
  record of calendar fields.
* The SQLite development path is the one modelled (the PostgreSQL branch of
  each handler runs the same statements).  SQLite does not enforce foreign
  keys unless `PRAGMA foreign_keys` is issued, which `app.py` never does, so
  inserts referencing absent rows succeed, exactly as in the source.
* `ORDER BY` clauses that only affect presentation order are modelled where
  a `LIMIT` depends on them (`get_my_submissions`) and omitted where no
  claim depends on ordering (rollup rows, supply listing).
* The `strftime('%m', ...)`/`strftime('%Y', ...)` comparisons against the
  zero-padded month and year strings are modelled as equality of the
  calendar month and year fields, which coincides for well-formed dates.
* HTTP outcomes are modelled by `HttpResult`: `success` for a JSON body
  with `success: true` (or a plain 200 payload), `failure c` for an error
  response with status code `c`.
-/

/-- A calendar date (the `DATE` column type); no time-of-day component. -/
structure Date where
  year : Nat
  month : Nat
  day : Nat
deriving DecidableEq, Repr

/-- Row of `users`: id, role (`'inspector'` or `'admin'`) and parish. -/
structure User where
  id : Nat
  role : String
  parish : String
  full_name : String
deriving DecidableEq, Repr

/-- Row of `water_supplies`. -/
structure Supply where
  id : Nat
  name : String
  supply_type : String
  agency : String
  parish : String
deriving DecidableEq, Repr

/-- Row of `sampling_points` (only the columns the claims need). -/
structure SamplingPoint where
  id : Nat
  supply_id : Nat
  name : String
deriving DecidableEq, Repr

/-- Row of `inspection_submissions`, with the columns the modelled
handlers read or write. -/
structure Submission where
  id : Nat
  supply_id : Nat
  inspector_id : Nat
  sampling_point_id : Option Nat
  submission_date : Date
  visits : Int
  chlorine_total : Int
  chlorine_positive : Int
  chlorine_negative : Int
  bacteriological_positive : Int
  bacteriological_negative : Int
  bacteriological_pending : Int
  bacteriological_rejected : Int
  bacteriological_broken : Int
  bacteriological_status : String
  isolated_organism : Option String
  ph_satisfactory : Int
  ph_non_satisfactory : Int
  chemical_satisfactory : Int
  chemical_non_satisfactory : Int
  turbidity_satisfactory : Int
  turbidity_non_satisfactory : Int
  temperature_satisfactory : Int
  temperature_non_satisfactory : Int
  remarks : String
  created_at : Nat
deriving DecidableEq, Repr

/-- Row of `inspector_signatures`. -/
structure Signature where
  submission_id : Nat
  inspector_id : Nat
  action_type : String
  notes : String
deriving DecidableEq, Repr

/-- Row of `inspector_tasks` (named after its table; `Task` itself is
taken by the Lean prelude). -/
structure InspectorTask where
  id : Nat
  title : String
  description : String
  assigned_to_id : Nat
  supply_id : Option Nat
  priority : String
  due_date : String
  status : String
  created_by_id : Nat
  created_at : Nat
  updated_at : Nat
deriving DecidableEq, Repr

/-- The database state: one list per table, plus the autoincrement
counters. -/
structure DB where
  users : List User
  water_supplies : List Supply
  sampling_points : List SamplingPoint
  inspection_submissions : List Submission
  inspector_signatures : List Signature
  inspector_tasks : List InspectorTask
  next_submission_id : Nat
  next_task_id : Nat
deriving Repr

/-- Outcome of a request handler. -/
inductive HttpResult where
  | success : HttpResult
  | failure : Nat → HttpResult
deriving DecidableEq, Repr

/-- One output row of the monthly rollup queries in `get_monthly_data` /
`get_monthly_report`: the supply's display columns, the seven
`COALESCE(SUM(...), 0)` count columns, and `MAX(sub.created_at)` which is
NULL (`none`) when no submission joined. -/
structure RollupRow where
  supply_id : Nat
  supply_name : String
  supply_type : String
  agency : String
  visits : Int
  chlorine_total : Int
  chlorine_positive : Int
  chlorine_negative : Int
  bacteriological_positive : Int
  bacteriological_negative : Int
  bacteriological_pending : Int
  last_updated : Option Nat
deriving DecidableEq, Repr

/-- The `ON` condition of the rollup's `LEFT JOIN`: the submission belongs
to the supply and its `submission_date` has the requested month and year. -/
def rollupMatch (sid m y : Nat) (b : Submission) : Bool :=
  decide (b.supply_id = sid ∧ b.submission_date.month = m ∧ b.submission_date.year = y)

/-- The row produced for a supply that no submission joined: every
aggregated count is `COALESCE`d to 0 and `MAX(created_at)` is NULL. -/
def emptyRollupRow (ws : Supply) : RollupRow :=
  { supply_id := ws.id
    supply_name := ws.name
    supply_type := ws.supply_type
    agency := ws.agency
    visits := 0
    chlorine_total := 0
    chlorine_positive := 0
    chlorine_negative := 0
    bacteriological_positive := 0
    bacteriological_negative := 0
    bacteriological_pending := 0
    last_updated := none }

/-- Folding one joined submission into the aggregate row (the `SUM` and
`MAX` aggregation of the `GROUP BY`). -/
def accumulateRollup (b : Submission) (acc : RollupRow) : RollupRow :=
  { acc with
    visits := acc.visits + b.visits
    chlorine_total := acc.chlorine_total + b.chlorine_total
    chlorine_positive := acc.chlorine_positive + b.chlorine_positive
    chlorine_negative := acc.chlorine_negative + b.chlorine_negative
    bacteriological_positive := acc.bacteriological_positive + b.bacteriological_positive
    bacteriological_negative := acc.bacteriological_negative + b.bacteriological_negative
    bacteriological_pending := acc.bacteriological_pending + b.bacteriological_pending
    last_updated := some (match acc.last_updated with
      | none => b.created_at
      | some t => max t b.created_at) }

/-- The rollup row for one supply: scan the `inspection_submissions`
table, aggregating the rows the `LEFT JOIN ... ON` condition admits for
the requested `(month, year)`. -/
def rollupRow (subs : List Submission) (ws : Supply) (m y : Nat) : RollupRow :=
  subs.foldr (fun b acc => if rollupMatch ws.id m y b then accumulateRollup b acc else acc)
    (emptyRollupRow ws)

/-- `GET /api/monthly-data` (`get_monthly_data`): requires a session, then
produces one rollup row per `water_supplies` row, for the server's current
month and year.  No parish filter appears in the query. -/
def get_monthly_data (db : DB) (session_user : Option Nat) (m y : Nat) :
    Option (List RollupRow) :=
  match session_user with
  | none => none
  | some _ => some (db.water_supplies.map (fun ws => rollupRow db.inspection_submissions ws m y))

/-- `GET /api/report/<year>/<month>` (`get_monthly_report`): same rollup
query for an explicit month and year (its extra `GROUP_CONCAT` remarks
column is not modelled; no claim mentions it). -/
def get_monthly_report (db : DB) (session_user : Option Nat) (y m : Nat) :
    Option (List RollupRow) :=
  match session_user with
  | none => none
  | some _ => some (db.water_supplies.map (fun ws => rollupRow db.inspection_submissions ws m y))

/-- The submissions that contribute to a supply's `(month, year)` rollup:
the `WHERE`-side reading of the join condition. -/
def matchingSubs (subs : List Submission) (sid m y : Nat) : List Submission :=
  subs.filter (rollupMatch sid m y)

theorem rollupRow_eq_agg (subs : List Submission) (ws : Supply) (m y : Nat) :
    rollupRow subs ws m y =
      (matchingSubs subs ws.id m y).foldr accumulateRollup (emptyRollupRow ws) := by
  induction subs with
  | nil => rfl
  | cons b rest ih =>
      simp only [rollupRow, matchingSubs, List.foldr, List.filter] at *
      by_cases h : rollupMatch ws.id m y b
      · simp [h, ih]
      · simp [h, ih]

theorem agg_count_fields (ms : List Submission) (ws : Supply) :
    (ms.foldr accumulateRollup (emptyRollupRow ws)).visits
        = (ms.map Submission.visits).sum ∧
    (ms.foldr accumulateRollup (emptyRollupRow ws)).chlorine_total
        = (ms.map Submission.chlorine_total).sum ∧
    (ms.foldr accumulateRollup (emptyRollupRow ws)).chlorine_positive
        = (ms.map Submission.chlorine_positive).sum ∧
    (ms.foldr accumulateRollup (emptyRollupRow ws)).chlorine_negative
        = (ms.map Submission.chlorine_negative).sum ∧
    (ms.foldr accumulateRollup (emptyRollupRow ws)).bacteriological_positive
        = (ms.map Submission.bacteriological_positive).sum ∧
    (ms.foldr accumulateRollup (emptyRollupRow ws)).bacteriological_negative
        = (ms.map Submission.bacteriological_negative).sum ∧
    (ms.foldr accumulateRollup (emptyRollupRow ws)).bacteriological_pending
        = (ms.map Submission.bacteriological_pending).sum := by
  induction ms with
  | nil => simp [emptyRollupRow]
  | cons b rest ih =>
      obtain ⟨h1, h2, h3, h4, h5, h6, h7⟩ := ih
      refine ⟨?_, ?_, ?_, ?_, ?_, ?_, ?_⟩ <;>
        simp [accumulateRollup, h1, h2, h3, h4, h5, h6, h7] <;> ring

theorem agg_last_updated_none (ws : Supply) :
    (([] : List Submission).foldr accumulateRollup (emptyRollupRow ws)).last_updated = none := rfl

theorem agg_last_updated_max (ms : List Submission) (ws : Supply) (hne : ms ≠ []) :
    ∃ t, (ms.foldr accumulateRollup (emptyRollupRow ws)).last_updated = some t ∧
      t ∈ ms.map Submission.created_at ∧ ∀ u ∈ ms.map Submission.created_at, u ≤ t := by
  induction ms with
  | nil => exact absurd rfl hne
  | cons b rest ih =>
      cases rest with
      | nil =>
          refine ⟨b.created_at, ?_, by simp, by simp⟩
          simp [accumulateRollup, emptyRollupRow]
      | cons c rest' =>
          obtain ⟨t, ht, htmem, htmax⟩ := ih (by simp)
          refine ⟨max t b.created_at, ?_, ?_, ?_⟩
          · simp [List.foldr, accumulateRollup] at ht ⊢
            rw [ht]
          · rcases max_choice t b.created_at with h | h <;> rw [h]
            · simpa using Or.inr (by simpa using htmem)
            · simp
          · intro u hu
            simp at hu
            rcases hu with h | h | h
            · subst h; exact le_max_right _ _
            · exact le_trans (htmax u (by simp [h])) (le_max_left _ _)
            · exact le_trans (htmax u (by simp; right; exact h)) (le_max_left _ _)

/-- The property C1 asserts of the rollup, stated independently of the
aggregation fold: every count column equals the exact integer sum of that
column over exactly the matching submissions, and a submission whose date
lies in a different month contributes nothing. -/
def RollupCountsSpec (db : DB) (ws : Supply) (m y : Nat) : Prop :=
  (∀ uid : Nat, ∃ rows, get_monthly_report db (some uid) y m = some rows ∧
      rollupRow db.inspection_submissions ws m y ∈ rows) ∧
  (rollupRow db.inspection_submissions ws m y).visits
      = ((matchingSubs db.inspection_submissions ws.id m y).map Submission.visits).sum ∧
  (rollupRow db.inspection_submissions ws m y).chlorine_total
      = ((matchingSubs db.inspection_submissions ws.id m y).map Submission.chlorine_total).sum ∧
  (rollupRow db.inspection_submissions ws m y).chlorine_positive
      = ((matchingSubs db.inspection_submissions ws.id m y).map Submission.chlorine_positive).sum ∧
  (rollupRow db.inspection_submissions ws m y).chlorine_negative
      = ((matchingSubs db.inspection_submissions ws.id m y).map Submission.chlorine_negative).sum ∧
  (rollupRow db.inspection_submissions ws m y).bacteriological_positive
      = ((matchingSubs db.inspection_submissions ws.id m y).map Submission.bacteriological_positive).sum ∧
  (rollupRow db.inspection_submissions ws m y).bacteriological_negative
      = ((matchingSubs db.inspection_submissions ws.id m y).map Submission.bacteriological_negative).sum ∧
  (rollupRow db.inspection_submissions ws m y).bacteriological_pending
      = ((matchingSubs db.inspection_submissions ws.id m y).map Submission.bacteriological_pending).sum ∧
  (∀ extra : Submission, extra.submission_date.month ≠ m →
      rollupRow (db.inspection_submissions ++ [extra]) ws m y
        = rollupRow db.inspection_submissions ws m y)

/-- C1: each count field of a supply's monthly rollup is the exact integer
sum of that field over exactly the submissions whose `supply_id` matches
and whose `submission_date` falls in the requested month and year; a
submission dated in another month (April versus March) contributes
nothing. -/
theorem rollup_counts_exact_sum (db : DB) (ws : Supply) (m y : Nat)
    (hws : ws ∈ db.water_supplies) : RollupCountsSpec db ws m y := by
  obtain ⟨h1, h2, h3, h4, h5, h6, h7⟩ :=
    agg_count_fields (matchingSubs db.inspection_submissions ws.id m y) ws
  refine ⟨fun uid => ⟨_, rfl, List.mem_map_of_mem _ hws⟩, ?_, ?_, ?_, ?_, ?_, ?_, ?_, ?_⟩
  · rw [rollupRow_eq_agg]; exact h1
  · rw [rollupRow_eq_agg]; exact h2
  · rw [rollupRow_eq_agg]; exact h3
  · rw [rollupRow_eq_agg]; exact h4
  · rw [rollupRow_eq_agg]; exact h5
  · rw [rollupRow_eq_agg]; exact h6
  · rw [rollupRow_eq_agg]; exact h7
  · intro extra hmonth
    have hfalse : rollupMatch ws.id m y extra = false := by
      simp [rollupMatch, hmonth]
    simp [rollupRow, List.foldr_append, hfalse]

/-- A submission record with every count zeroed, used as the base of the
concrete test fixtures. -/
def baseSub : Submission :=
  { id := 1, supply_id := 1, inspector_id := 1, sampling_point_id := none,
    submission_date := ⟨2024, 3, 5⟩, visits := 0, chlorine_total := 0,
    chlorine_positive := 0, chlorine_negative := 0,
    bacteriological_positive := 0, bacteriological_negative := 0,
    bacteriological_pending := 0, bacteriological_rejected := 0,
    bacteriological_broken := 0, bacteriological_status := "pending",
    isolated_organism := some "", ph_satisfactory := 0,
    ph_non_satisfactory := 0, chemical_satisfactory := 0,
    chemical_non_satisfactory := 0, turbidity_satisfactory := 0,
    turbidity_non_satisfactory := 0, temperature_satisfactory := 0,
    temperature_non_satisfactory := 0, remarks := "", created_at := 1 }

/-- Fixture supply X (parish Westmoreland). -/
def supplyX : Supply := ⟨1, "Supply X", "treated", "NWC", "Westmoreland"⟩

/-- Fixture supply Y (parish Trelawny), with no submissions in the
fixture database. -/
def supplyY : Supply := ⟨2, "Supply Y", "untreated", "Parish Council", "Trelawny"⟩

/-- Fixture inspector (parish Westmoreland). -/
def userInsp : User := ⟨1, "inspector", "Westmoreland", "Insp One"⟩

/-- Fixture admin (parish Trelawny). -/
def userAdmin : User := ⟨2, "admin", "Trelawny", "Admin Two"⟩

/-- Fixture submission A: March 2024 on supply X, `visits 2`,
`chlorine_total 5`, bacteriological `pending 5 / positive 2 / negative 1`. -/
def subA : Submission :=
  { baseSub with visits := 2, chlorine_total := 5, bacteriological_pending := 5, bacteriological_positive := 2, bacteriological_negative := 1 }

/-- Fixture submission B: March 2024 on supply X, `visits 1`,
`chlorine_total 3`. -/
def subB : Submission :=
  { baseSub with id := 2, visits := 1, chlorine_total := 3, created_at := 2 }

/-- Fixture database: two supplies; supply X has two March-2024
submissions (`subA` and `subB`), supply Y has none. -/
def db0 : DB :=
  { users := [userInsp, userAdmin]
    water_supplies := [supplyX, supplyY]
    sampling_points := []
    inspection_submissions := [subA, subB]
    inspector_signatures := []
    inspector_tasks := []
    next_submission_id := 3
    next_task_id := 1 }

theorem rollup_counts_exact_sum_witness :
    supplyX ∈ db0.water_supplies ∧ RollupCountsSpec db0 supplyX 3 2024 :=
  ⟨by simp [db0], rollup_counts_exact_sum db0 supplyX 3 2024 (by simp [db0])⟩

/-- The property C2 asserts: every catalog supply yields a row in the
rollup result; with no matching submissions the row is exactly the
all-zero row with NULL `last_updated`; with matching submissions,
`last_updated` is the maximum `created_at` among exactly the contributing
rows. -/
def RollupZeroRowSpec (db : DB) (ws : Supply) (m y : Nat) : Prop :=
  (∀ uid : Nat, ∃ rows, get_monthly_report db (some uid) y m = some rows ∧
      rollupRow db.inspection_submissions ws m y ∈ rows) ∧
  (matchingSubs db.inspection_submissions ws.id m y = [] →
      rollupRow db.inspection_submissions ws m y = emptyRollupRow ws) ∧
  (matchingSubs db.inspection_submissions ws.id m y ≠ [] →
      ∃ t, (rollupRow db.inspection_submissions ws m y).last_updated = some t ∧
        t ∈ (matchingSubs db.inspection_submissions ws.id m y).map Submission.created_at ∧
        ∀ u ∈ (matchingSubs db.inspection_submissions ws.id m y).map Submission.created_at,
          u ≤ t)

/-- C2: a supply with zero matching submissions still appears in the
rollup, with every count field exactly 0 and `last_updated` NULL; when
submissions match, `last_updated` is the maximum `created_at` among the
contributing rows. -/
theorem rollup_zero_row_and_last_updated (db : DB) (ws : Supply) (m y : Nat)
    (hws : ws ∈ db.water_supplies) : RollupZeroRowSpec db ws m y := by
  refine ⟨fun uid => ⟨_, rfl, List.mem_map_of_mem _ hws⟩, ?_, ?_⟩
  · intro h
    rw [rollupRow_eq_agg, h]
    rfl
  · intro h
    rw [rollupRow_eq_agg]
    exact agg_last_updated_max _ _ h

theorem rollup_zero_row_and_last_updated_witness :
    (supplyY ∈ db0.water_supplies ∧ RollupZeroRowSpec db0 supplyY 3 2024) ∧
    (supplyX ∈ db0.water_supplies ∧ RollupZeroRowSpec db0 supplyX 4 2024) :=
  ⟨⟨by simp [db0], rollup_zero_row_and_last_updated db0 supplyY 3 2024 (by simp [db0])⟩,
   ⟨by simp [db0], rollup_zero_row_and_last_updated db0 supplyX 4 2024 (by simp [db0])⟩⟩

/-- `SELECT parish FROM users WHERE id = ?` (and the other single-row user
lookups): first row with the given id. -/
def find_user (db : DB) (uid : Nat) : Option User :=
  db.users.find? (fun u => u.id == uid)

/-- `SELECT ... FROM inspection_submissions WHERE id = ?`: first row with
the given id. -/
def find_submission (db : DB) (sid : Nat) : Option Submission :=
  db.inspection_submissions.find? (fun s => s.id == sid)

/-- `GET /api/supplies` (`get_supplies`): after the session check, the
caller's parish is looked up and the listing is
`SELECT * FROM water_supplies WHERE parish = ?` — the same filter for
every role, admin included.  `none` stands for the 401/404 error
responses. -/
def get_supplies (db : DB) (session_user : Option Nat) : Option (List Supply) :=
  match session_user with
  | none => none
  | some uid =>
    match find_user db uid with
    | none => none
    | some u => some (db.water_supplies.filter (fun ws => ws.parish == u.parish))

/-- The `FROM inspection_submissions s JOIN water_supplies ws JOIN users u`
of `get_my_submissions`: each submission paired with its supply row (the
`LEFT JOIN sampling_points` only adds display columns and is dropped);
rows whose supply or inspector is missing are dropped by the inner joins. -/
def joinedSubmissions (db : DB) : List (Submission × Supply) :=
  db.inspection_submissions.filterMap (fun s =>
    match db.water_supplies.find? (fun ws => ws.id == s.supply_id), find_user db s.inspector_id with
    | some ws, some _ => some (s, ws)
    | _, _ => none)

def insertByCreatedDesc (p : Submission × Supply) :
    List (Submission × Supply) → List (Submission × Supply)
  | [] => [p]
  | q :: qs =>
    if q.1.created_at ≥ p.1.created_at then q :: insertByCreatedDesc p qs else p :: q :: qs

/-- `ORDER BY s.created_at DESC` as an insertion sort. -/
def sortByCreatedDesc : List (Submission × Supply) → List (Submission × Supply)
  | [] => []
  | p :: ps => insertByCreatedDesc p (sortByCreatedDesc ps)

/-- `GET /api/my-submissions` (`get_my_submissions`): despite its name, the
query has no `WHERE` clause on inspector or parish — the source comment
reads "Changed to show ALL submissions across all parishes".  Only the
session check mentions the caller. -/
def get_my_submissions (db : DB) (session_user : Option Nat) :
    Option (List (Submission × Supply)) :=
  match session_user with
  | none => none
  | some _ => some ((sortByCreatedDesc (joinedSubmissions db)).take 50)

/-- Fixture for the tenancy counterexample: the Westmoreland inspector's
database also holds a Trelawny submission (supply Y, inspector 2). -/
def subTrelawny : Submission :=
  { baseSub with id := 7, supply_id := 2, inspector_id := 2, visits := 4 }

/-- Fixture database for the tenancy counterexample: one Trelawny-parish
submission visible to everybody. -/
def db1 : DB :=
  { users := [userInsp, userAdmin]
    water_supplies := [supplyX, supplyY]
    sampling_points := []
    inspection_submissions := [subTrelawny]
    inspector_signatures := []
    inspector_tasks := []
    next_submission_id := 8
    next_task_id := 1 }

/-- C3 counterexample: `userInsp` is a non-admin caller of parish
Westmoreland, yet `get_my_submissions` hands them a submission whose
supply belongs to parish Trelawny. -/
theorem tenancy_counterexample :
    userInsp.role ≠ "admin" ∧
    get_my_submissions db1 (some userInsp.id) = some [(subTrelawny, supplyY)] ∧
    supplyY.parish ≠ userInsp.parish := by
  refine ⟨by decide, rfl, by decide⟩

/-- The parish behaviour the code actually implements: the supplies
listing is filtered to the caller's own parish whatever the role, and the
submissions listing is computed without consulting the caller at all. -/
def TenancySpec (db : DB) : Prop :=
  (∀ uid u rows, find_user db uid = some u →
      get_supplies db (some uid) = some rows →
      ∀ s ∈ rows, s.parish = u.parish) ∧
  (∀ uid1 uid2, get_my_submissions db (some uid1) = get_my_submissions db (some uid2))

/-- C3 amended: `get_supplies` returns exactly the caller's own parish for
every role (admins included), while `get_my_submissions` applies no
tenancy scoping whatsoever — its result does not depend on which
authenticated caller asks. -/
theorem tenancy_amended (db : DB) : TenancySpec db := by
  constructor
  · intro uid u rows hu hrows s hs
    simp only [get_supplies, hu] at hrows
    obtain rfl : db.water_supplies.filter (fun ws => ws.parish == u.parish) = rows :=
      Option.some.inj hrows
    have := (List.mem_filter.mp hs).2
    simpa using this
  · intro uid1 uid2
    rfl

/-- `UPDATE inspection_submissions SET ... WHERE id = ?`: rewrite every
row carrying the id (ids are unique in the source's table; the computed
values come from the row fetched just before, exactly as the handler
binds constants into the `SET` clause). -/
def updateSubmission (subs : List Submission) (sid : Nat) (f : Submission → Submission) :
    List Submission :=
  subs.map (fun s => if s.id == sid then f s else s)

/-- `POST /api/update-sample/<id>` (`update_sample_results`): fetch the
row, check ownership, reject a correction whose deltas exceed the stored
`bacteriological_pending` with a 400, otherwise overwrite positive /
negative / pending with the computed values. -/
def update_sample_results (db : DB) (session_user : Option Nat) (sid : Nat)
    (positive_add negative_add : Int) : HttpResult × DB :=
  match session_user with
  | none => (.failure 401, db)
  | some uid =>
    match find_submission db sid with
    | none => (.failure 404, db)
    | some sub =>
      if sub.inspector_id ≠ uid then (.failure 403, db)
      else if positive_add + negative_add > sub.bacteriological_pending then (.failure 400, db)
      else
        (.success,
          { db with inspection_submissions :=
              updateSubmission db.inspection_submissions sid (fun s =>
                { s with
                  bacteriological_positive := sub.bacteriological_positive + positive_add
                  bacteriological_negative := sub.bacteriological_negative + negative_add
                  bacteriological_pending :=
                    sub.bacteriological_pending - (positive_add + negative_add) }) })

theorem find_updateSubmission (subs : List Submission) (sid : Nat)
    (f : Submission → Submission) (hf : ∀ s, (f s).id = s.id) :
    (updateSubmission subs sid f).find? (fun s => s.id == sid)
      = (subs.find? (fun s => s.id == sid)).map f := by
  induction subs with
  | nil => rfl
  | cons s rest ih =>
      by_cases h : s.id = sid
      · simp [updateSubmission, List.find?, h, hf]
      · have hb : (s.id == sid) = false := by simp [h]
        simp only [updateSubmission, List.map_cons, List.find?, hb, if_neg, Bool.false_eq_true,
          not_false_eq_true, if_false]
        simpa [updateSubmission, hb] using ih

/-- The property C4 asserts of a bacteriological correction, given that
`sub` is the stored row and the caller owns it: an over-large correction
fails with the validation error and leaves the whole database untouched;
otherwise it succeeds and adds the deltas, subtracting their sum from
`pending`. -/
def SampleCorrectionSpec (db : DB) (uid sid : Nat) (sub : Submission)
    (positive_add negative_add : Int) : Prop :=
  (positive_add + negative_add > sub.bacteriological_pending →
      update_sample_results db (some uid) sid positive_add negative_add = (.failure 400, db)) ∧
  (positive_add + negative_add ≤ sub.bacteriological_pending →
      (update_sample_results db (some uid) sid positive_add negative_add).1 = .success ∧
      ∃ sub', find_submission (update_sample_results db (some uid) sid positive_add negative_add).2 sid
            = some sub' ∧
        sub'.bacteriological_positive = sub.bacteriological_positive + positive_add ∧
        sub'.bacteriological_negative = sub.bacteriological_negative + negative_add ∧
        sub'.bacteriological_pending = sub.bacteriological_pending - (positive_add + negative_add))

/-- C4: a correction whose deltas sum beyond the current pending count
fails with the validation error and changes nothing; otherwise it
succeeds, adding the deltas to positive/negative and subtracting their
sum from pending. -/
theorem sample_correction_constrained (db : DB) (uid sid : Nat) (sub : Submission)
    (positive_add negative_add : Int)
    (hfind : find_submission db sid = some sub)
    (hown : sub.inspector_id = uid) :
    SampleCorrectionSpec db uid sid sub positive_add negative_add := by
  constructor
  · intro hgt
    simp [update_sample_results, hfind, hown, hgt]
  · intro hle
    have hngt : ¬ (positive_add + negative_add > sub.bacteriological_pending) := not_lt.mpr hle
    have hres : update_sample_results db (some uid) sid positive_add negative_add
        = (.success,
           { db with inspection_submissions :=
               updateSubmission db.inspection_submissions sid (fun s =>
                 { s with
                   bacteriological_positive := sub.bacteriological_positive + positive_add
                   bacteriological_negative := sub.bacteriological_negative + negative_add
                   bacteriological_pending :=
                     sub.bacteriological_pending - (positive_add + negative_add) }) }) := by
      simp [update_sample_results, hfind, hown, hngt]
    rw [hres]
    refine ⟨rfl, ?_⟩
    refine ⟨{ sub with
        bacteriological_positive := sub.bacteriological_positive + positive_add
        bacteriological_negative := sub.bacteriological_negative + negative_add
        bacteriological_pending := sub.bacteriological_pending - (positive_add + negative_add) },
      ?_, rfl, rfl, rfl⟩
    show (updateSubmission db.inspection_submissions sid _).find? (fun s => s.id == sid) = _
    rw [find_updateSubmission db.inspection_submissions sid
      (fun s =>
        { s with
          bacteriological_positive := sub.bacteriological_positive + positive_add
          bacteriological_negative := sub.bacteriological_negative + negative_add
          bacteriological_pending := sub.bacteriological_pending - (positive_add + negative_add) })
      (fun s => rfl)]
    have hfind2 : List.find? (fun s => s.id == sid) db.inspection_submissions = some sub := hfind
    rw [hfind2]
    rfl

theorem sample_correction_constrained_witness :
    (find_submission db0 1 = some subA ∧ subA.inspector_id = 1 ∧
      SampleCorrectionSpec db0 1 1 subA 3 3) ∧
    (find_submission db0 1 = some subA ∧ subA.inspector_id = 1 ∧
      SampleCorrectionSpec db0 1 1 subA 2 3) :=
  ⟨⟨rfl, rfl, sample_correction_constrained db0 1 1 subA 3 3 rfl rfl⟩,
   ⟨rfl, rfl, sample_correction_constrained db0 1 1 subA 2 3 rfl rfl⟩⟩

/-- JSON body of `POST /api/update-bacteriological`: `data.get('id')` and
the absolute replacement values the handler binds into its `UPDATE`. -/
structure BactPayload where
  id : Option Nat
  bacteriological_positive : Int := 0
  bacteriological_negative : Int := 0
  bacteriological_pending : Int := 0
  isolated_organism : Option String := none
  bacteriological_status : String := "pending"
deriving Repr

/-- `POST /api/update-bacteriological` (`update_bacteriological`): fetch
the row by the payload id (a missing id matches no row, hence 404), check
ownership, then overwrite the five bacteriological columns with the
payload values as given — no comparison against the stored pending count
appears anywhere in the handler. -/
def update_bacteriological (db : DB) (session_user : Option Nat) (p : BactPayload) :
    HttpResult × DB :=
  match session_user with
  | none => (.failure 401, db)
  | some uid =>
    match p.id with
    | none => (.failure 404, db)
    | some sid =>
      match find_submission db sid with
      | none => (.failure 404, db)
      | some sub =>
        if sub.inspector_id ≠ uid then (.failure 403, db)
        else
          (.success,
            { db with inspection_submissions :=
                updateSubmission db.inspection_submissions sid (fun s =>
                  { s with
                    bacteriological_positive := p.bacteriological_positive
                    bacteriological_negative := p.bacteriological_negative
                    bacteriological_pending := p.bacteriological_pending
                    isolated_organism := p.isolated_organism
                    bacteriological_status := p.bacteriological_status }) })

/-- The property C10 asserts: for a row the caller owns, the operation
accepts any absolute values whatsoever and stores them verbatim — the
`positive_delta + negative_delta ≤ current_pending` rule of the
correction endpoint is nowhere applied. -/
def AbsoluteOverwriteSpec (db : DB) (uid sid : Nat) (p : BactPayload) : Prop :=
  (update_bacteriological db (some uid) p).1 = .success ∧
  ∃ sub', find_submission (update_bacteriological db (some uid) p).2 sid = some sub' ∧
    sub'.bacteriological_positive = p.bacteriological_positive ∧
    sub'.bacteriological_negative = p.bacteriological_negative ∧
    sub'.bacteriological_pending = p.bacteriological_pending ∧
    sub'.isolated_organism = p.isolated_organism ∧
    sub'.bacteriological_status = p.bacteriological_status

/-- C10: `update_bacteriological` overwrites positive, negative, pending,
isolated organism and status with exactly the caller-supplied absolute
values, for every payload — no hypothesis relates the new values to the
row's prior pending count, so it bypasses the delta constraint of the
correction endpoint. -/
theorem bacteriological_absolute_overwrite (db : DB) (uid sid : Nat) (sub : Submission)
    (p : BactPayload)
    (hp : p.id = some sid)
    (hfind : find_submission db sid = some sub)
    (hown : sub.inspector_id = uid) :
    AbsoluteOverwriteSpec db uid sid p := by
  have hres : update_bacteriological db (some uid) p
      = (.success,
         { db with inspection_submissions :=
             updateSubmission db.inspection_submissions sid (fun s =>
               { s with
                 bacteriological_positive := p.bacteriological_positive
                 bacteriological_negative := p.bacteriological_negative
                 bacteriological_pending := p.bacteriological_pending
                 isolated_organism := p.isolated_organism
                 bacteriological_status := p.bacteriological_status }) }) := by
    simp [update_bacteriological, hp, hfind, hown]
  rw [AbsoluteOverwriteSpec, hres]
  refine ⟨rfl, ?_⟩
  refine ⟨{ sub with
      bacteriological_positive := p.bacteriological_positive
      bacteriological_negative := p.bacteriological_negative
      bacteriological_pending := p.bacteriological_pending
      isolated_organism := p.isolated_organism
      bacteriological_status := p.bacteriological_status },
    ?_, rfl, rfl, rfl, rfl, rfl⟩
  show (updateSubmission db.inspection_submissions sid _).find? (fun s => s.id == sid) = _
  rw [find_updateSubmission db.inspection_submissions sid
    (fun s =>
      { s with
        bacteriological_positive := p.bacteriological_positive
        bacteriological_negative := p.bacteriological_negative
        bacteriological_pending := p.bacteriological_pending
        isolated_organism := p.isolated_organism
        bacteriological_status := p.bacteriological_status })
    (fun s => rfl)]
  have hfind2 : List.find? (fun s => s.id == sid) db.inspection_submissions = some sub := hfind
  rw [hfind2]
  rfl

/-- A payload that flatly violates the delta rule on `subA` (stored
pending is 5): 90 new positives, status forced to complete, pending set
to 7. -/
def bactPayloadX : BactPayload :=
  { id := some 1, bacteriological_positive := 90, bacteriological_negative := 1,
    bacteriological_pending := 7, isolated_organism := some "E. coli",
    bacteriological_status := "complete" }

theorem bacteriological_absolute_overwrite_witness :
    bactPayloadX.id = some 1 ∧ find_submission db0 1 = some subA ∧ subA.inspector_id = 1 ∧
      AbsoluteOverwriteSpec db0 1 1 bactPayloadX :=
  ⟨rfl, rfl, rfl, bacteriological_absolute_overwrite db0 1 1 subA bactPayloadX rfl rfl rfl⟩

/-- JSON body of `POST /api/submit-inspection`: `data['supply_id']` is the
only field read without a default (its absence raises before any SQL), the
rest are read with `.get(..., 0)` / `.get(..., '')` defaults.  A
`submission_date` key may be present in the payload; the handler never
reads it. -/
structure InspectionPayload where
  supply_id : Option Nat
  sampling_point_id : Option Nat := none
  submission_date : Option Date := none
  visits : Int := 0
  chlorine_total : Int := 0
  chlorine_positive : Int := 0
  chlorine_negative : Int := 0
  bacteriological_positive : Int := 0
  bacteriological_negative : Int := 0
  bacteriological_pending : Int := 0
  bacteriological_rejected : Int := 0
  bacteriological_broken : Int := 0
  isolated_organism : String := ""
  ph_satisfactory : Int := 0
  ph_non_satisfactory : Int := 0
  chemical_satisfactory : Int := 0
  chemical_non_satisfactory : Int := 0
  turbidity_satisfactory : Int := 0
  turbidity_non_satisfactory : Int := 0
  temperature_satisfactory : Int := 0
  temperature_non_satisfactory : Int := 0
  remarks : String := ""
deriving Repr

/-- The row `submit_inspection` inserts: `submission_date` is the server's
`date('now')` / `CURRENT_DATE`, `created_at` the server clock, and the
bacteriological status is computed before the insert exactly as in lines
2062-2070 of the handler. -/
def newSubmission (db : DB) (uid sid : Nat) (p : InspectionPayload) (today : Date)
    (nowTs : Nat) : Submission :=
  { id := db.next_submission_id
    supply_id := sid
    inspector_id := uid
    sampling_point_id := p.sampling_point_id
    submission_date := today
    visits := p.visits
    chlorine_total := p.chlorine_total
    chlorine_positive := p.chlorine_positive
    chlorine_negative := p.chlorine_negative
    bacteriological_positive := p.bacteriological_positive
    bacteriological_negative := p.bacteriological_negative
    bacteriological_pending := p.bacteriological_pending
    bacteriological_rejected := p.bacteriological_rejected
    bacteriological_broken := p.bacteriological_broken
    bacteriological_status :=
      if p.bacteriological_pending > 0 ∨ p.bacteriological_positive + p.bacteriological_negative = 0
      then "pending" else "complete"
    isolated_organism := some p.isolated_organism
    ph_satisfactory := p.ph_satisfactory
    ph_non_satisfactory := p.ph_non_satisfactory
    chemical_satisfactory := p.chemical_satisfactory
    chemical_non_satisfactory := p.chemical_non_satisfactory
    turbidity_satisfactory := p.turbidity_satisfactory
    turbidity_non_satisfactory := p.turbidity_non_satisfactory
    temperature_satisfactory := p.temperature_satisfactory
    temperature_non_satisfactory := p.temperature_non_satisfactory
    remarks := p.remarks
    created_at := nowTs }

/-- `POST /api/submit-inspection` (`submit_inspection`).  Control flow of
the source, SQLite path: a missing `supply_id` raises `KeyError` while the
parameter tuple is built, before any SQL, so the rollback leaves the
database untouched (500).  Otherwise the submission and signature rows are
inserted (SQLite enforces no foreign keys here), the display query joins
`water_supplies` and `users`, and `conn.commit()` runs before the join
result is used — so once the inserts ran, the rows stay committed on
every path.  If the join found no row, `dict(None)` raises after the
commit (500); if it did, `socketio.emit` runs after `conn.close()` and an
emit failure also lands in the `except` branch (500).  `emitOk` models
whether the emit call raises. -/
def submit_inspection (db : DB) (session_user : Option Nat) (p : InspectionPayload)
    (today : Date) (nowTs : Nat) (emitOk : Bool) : HttpResult × DB :=
  match session_user with
  | none => (.failure 401, db)
  | some uid =>
    match p.supply_id with
    | none => (.failure 500, db)
    | some sid =>
      let db1 : DB :=
        { db with
          inspection_submissions :=
            db.inspection_submissions ++ [newSubmission db uid sid p today nowTs]
          inspector_signatures :=
            db.inspector_signatures ++
              [⟨db.next_submission_id, uid, "Initial Submission", "Created inspection report"⟩]
          next_submission_id := db.next_submission_id + 1 }
      match db.water_supplies.find? (fun ws => ws.id == sid), find_user db uid with
      | some _, some _ => if emitOk then (.success, db1) else (.failure 500, db1)
      | _, _ => (.failure 500, db1)

theorem submit_inspection_snd (db : DB) (uid sid : Nat) (p : InspectionPayload)
    (today : Date) (nowTs : Nat) (emitOk : Bool) (hp : p.supply_id = some sid) :
    (submit_inspection db (some uid) p today nowTs emitOk).2
      = { db with
          inspection_submissions :=
            db.inspection_submissions ++ [newSubmission db uid sid p today nowTs]
          inspector_signatures :=
            db.inspector_signatures ++
              [⟨db.next_submission_id, uid, "Initial Submission", "Created inspection report"⟩]
          next_submission_id := db.next_submission_id + 1 } := by
  unfold submit_inspection
  rw [hp]
  rcases hw : db.water_supplies.find? (fun ws => ws.id == sid) with _ | w <;>
    rcases hu : find_user db uid with _ | u <;> cases emitOk <;> simp [hw, hu]

/-- The property C9 asserts: the handler never reads a caller-supplied
`submission_date` (swapping it changes nothing), and every row the call
adds carries the server's current date. -/
def ServerDateSpec (db : DB) (uid : Nat) (p : InspectionPayload) (today : Date)
    (nowTs : Nat) (emitOk : Bool) : Prop :=
  (∀ d : Option Date,
      submit_inspection db (some uid) { p with submission_date := d } today nowTs emitOk
        = submit_inspection db (some uid) p today nowTs emitOk) ∧
  (∀ sub' ∈ (submit_inspection db (some uid) p today nowTs emitOk).2.inspection_submissions,
      sub' ∈ db.inspection_submissions ∨ sub'.submission_date = today)

/-- C9: the stored `submission_date` is always the server's current
calendar date (`date('now')` / `CURRENT_DATE`); a `submission_date` in the
request payload is ignored, so no caller can back- or forward-date a
submission. -/
theorem submission_date_is_server_date (db : DB) (uid : Nat) (p : InspectionPayload)
    (today : Date) (nowTs : Nat) (emitOk : Bool) :
    ServerDateSpec db uid p today nowTs emitOk := by
  constructor
  · intro d
    rfl
  · intro sub' hsub'
    cases hp : p.supply_id with
    | none =>
        unfold submit_inspection at hsub'
        rw [hp] at hsub'
        exact Or.inl hsub'
    | some sid =>
        rw [submit_inspection_snd db uid sid p today nowTs emitOk hp] at hsub'
        rcases List.mem_append.mp hsub' with h | h
        · exact Or.inl h
        · right
          have : sub' = newSubmission db uid sid p today nowTs := by simpa using h
          rw [this]
          rfl

theorem submission_date_is_server_date_witness :
    ServerDateSpec db0 1 { supply_id := some 1, submission_date := some ⟨1999, 12, 31⟩ }
      ⟨2024, 3, 9⟩ 7 true ∧
    (submit_inspection db0 (some 1)
        { supply_id := some 1, submission_date := some ⟨1999, 12, 31⟩ }
        ⟨2024, 3, 9⟩ 7 true).2.inspection_submissions.all
      (fun s => s.submission_date ≠ ⟨1999, 12, 31⟩) :=
  ⟨submission_date_is_server_date db0 1
      { supply_id := some 1, submission_date := some ⟨1999, 12, 31⟩ } ⟨2024, 3, 9⟩ 7 true,
   by decide⟩

theorem rollupRow_append_nonmatching (subs : List Submission) (extra : Submission)
    (ws : Supply) (m y : Nat) (h : rollupMatch ws.id m y extra = false) :
    rollupRow (subs ++ [extra]) ws m y = rollupRow subs ws m y := by
  simp [rollupRow, List.foldr_append, h]

/-- What the append path actually does on bad references: a missing
`supply_id` aborts before any SQL (generic 500, database untouched); a
`supply_id` absent from the catalog still gets its row committed — the
post-insert display join finds nothing only after `conn.commit()` — yet
that orphan row is invisible to every rollup, because the rollup
enumerates catalog supplies; and a `sampling_point_id` absent from the
catalog is never checked at all, so the append succeeds. -/
def AppendValidationSpec (db : DB) (uid : Nat) (p : InspectionPayload) (today : Date)
    (nowTs : Nat) (emitOk : Bool) : Prop :=
  (p.supply_id = none →
      submit_inspection db (some uid) p today nowTs emitOk = (.failure 500, db)) ∧
  (∀ sid, p.supply_id = some sid →
      db.water_supplies.find? (fun ws => ws.id == sid) = none →
      (submit_inspection db (some uid) p today nowTs emitOk).1 = .failure 500 ∧
      (submit_inspection db (some uid) p today nowTs emitOk).2.inspection_submissions
          = db.inspection_submissions ++ [newSubmission db uid sid p today nowTs] ∧
      (∀ ws ∈ db.water_supplies, ∀ m y,
          rollupRow (submit_inspection db (some uid) p today nowTs emitOk).2.inspection_submissions
              ws m y
            = rollupRow db.inspection_submissions ws m y)) ∧
  (∀ sid, p.supply_id = some sid →
      (db.water_supplies.find? (fun ws => ws.id == sid)).isSome →
      (find_user db uid).isSome →
      emitOk = true →
      (submit_inspection db (some uid) p today nowTs emitOk).1 = .success)

/-- C7 amended: failures are generic 500s rather than typed
ValidationError/NotFound; a missing `supply_id` leaves no row; an
unknown `supply_id` leaves a committed ledger row that no rollup ever
shows; an unknown `sampling_point_id` is not validated and the append
succeeds. -/
theorem append_validation (db : DB) (uid : Nat) (p : InspectionPayload) (today : Date)
    (nowTs : Nat) (emitOk : Bool) : AppendValidationSpec db uid p today nowTs emitOk := by
  refine ⟨?_, ?_, ?_⟩
  · intro h
    unfold submit_inspection
    rw [h]
  · intro sid hp hnone
    refine ⟨?_, ?_, ?_⟩
    · unfold submit_inspection
      rw [hp]
      rcases hu3 : find_user db uid with _ | u <;> simp [hnone, hu3]
    · rw [submit_inspection_snd db uid sid p today nowTs emitOk hp]
    · intro ws hws m y
      rw [submit_inspection_snd db uid sid p today nowTs emitOk hp]
      apply rollupRow_append_nonmatching
      have hne : ¬ (ws.id == sid) = true := List.find?_eq_none.mp hnone ws hws
      have hne' : ws.id ≠ sid := by simpa using hne
      apply decide_eq_false
      rintro ⟨h1, -, -⟩
      exact hne' ((show (newSubmission db uid sid p today nowTs).supply_id = sid from rfl) ▸ h1).symm
  · intro sid hp hws hu hemit
    obtain ⟨w, hw⟩ := Option.isSome_iff_exists.mp hws
    obtain ⟨u, hu2⟩ := Option.isSome_iff_exists.mp hu
    unfold submit_inspection
    rw [hp]
    simp [hw, hu2, hemit]

/-- Payload naming a sampling point that is not in the catalog. -/
def payloadSp99 : InspectionPayload := { supply_id := some 1, sampling_point_id := some 99 }

/-- C7 counterexample: the catalog has no sampling point 99, yet the
append referencing it succeeds instead of failing with NotFound. -/
theorem append_notfound_counterexample :
    db0.sampling_points = [] ∧
    (submit_inspection db0 (some 1) payloadSp99 ⟨2024, 4, 2⟩ 9 true).1 = HttpResult.success :=
  ⟨rfl, by decide⟩

theorem append_validation_witness :
    AppendValidationSpec db0 1 { supply_id := some 77 } ⟨2024, 4, 2⟩ 9 true ∧
    (submit_inspection db0 (some 1) { supply_id := some 77 } ⟨2024, 4, 2⟩ 9 true).1
        = HttpResult.failure 500 :=
  ⟨append_validation db0 1 { supply_id := some 77 } ⟨2024, 4, 2⟩ 9 true,
   ((append_validation db0 1 { supply_id := some 77 } ⟨2024, 4, 2⟩ 9 true).2.1
      77 rfl (by decide)).1⟩

/-- What an emit failure actually does to an accepted write: the
submission stays committed (`conn.commit()` ran before `socketio.emit`),
but the exception from the emit lands in the handler's `except` branch,
so the caller is answered with a 500 error instead of success. -/
def NotifyFailureSpec (db : DB) (uid sid : Nat) (p : InspectionPayload) (today : Date)
    (nowTs : Nat) : Prop :=
  (submit_inspection db (some uid) p today nowTs false).2.inspection_submissions
      = db.inspection_submissions ++ [newSubmission db uid sid p today nowTs] ∧
  (submit_inspection db (some uid) p today nowTs false).1 = .failure 500

/-- C8 amended: when emitting the change notification fails, the committed
submission does remain committed, but the API response to the writer is a
500 error, not a success — the failure is propagated, not merely logged. -/
theorem notify_failure_commits_but_errors (db : DB) (uid sid : Nat) (p : InspectionPayload)
    (today : Date) (nowTs : Nat)
    (hp : p.supply_id = some sid)
    (hws : (db.water_supplies.find? (fun ws => ws.id == sid)).isSome)
    (hu : (find_user db uid).isSome) :
    NotifyFailureSpec db uid sid p today nowTs := by
  constructor
  · rw [submit_inspection_snd db uid sid p today nowTs false hp]
  · obtain ⟨w, hw⟩ := Option.isSome_iff_exists.mp hws
    obtain ⟨u, hu2⟩ := Option.isSome_iff_exists.mp hu
    unfold submit_inspection
    rw [hp]
    simp [hw, hu2]

/-- A fully valid submission payload for supply X. -/
def payloadValid : InspectionPayload := { supply_id := some 1, visits := 1 }

/-- C8 counterexample: with everything about the write valid, a failing
emit still yields a non-success response — the row is committed but the
writer is told the request failed. -/
theorem notify_failure_counterexample :
    (submit_inspection db0 (some 1) payloadValid ⟨2024, 3, 9⟩ 7 false).1 ≠ HttpResult.success ∧
    newSubmission db0 1 1 payloadValid ⟨2024, 3, 9⟩ 7
      ∈ (submit_inspection db0 (some 1) payloadValid ⟨2024, 3, 9⟩ 7 false).2.inspection_submissions :=
  ⟨by decide, by decide⟩

theorem notify_failure_commits_but_errors_witness :
    payloadValid.supply_id = some 1 ∧
    (db0.water_supplies.find? (fun ws => ws.id == 1)).isSome = true ∧
    (find_user db0 1).isSome = true ∧
    NotifyFailureSpec db0 1 1 payloadValid ⟨2024, 3, 9⟩ 7 :=
  ⟨rfl, by decide, by decide,
   notify_failure_commits_but_errors db0 1 1 payloadValid ⟨2024, 3, 9⟩ 7 rfl (by decide) (by decide)⟩

/-- Session data the task-creation handler reads: `session['user_id']` and
`session['role']`. -/
structure SessionInfo where
  user_id : Nat
  role : String
deriving DecidableEq, Repr

/-- JSON body of `POST /api/admin/tasks` (`data['title']`,
`data['inspector_id']`, `data['priority']`, `data['due_date']` are read
without defaults). -/
structure TaskPayload where
  title : String
  description : String := ""
  inspector_id : Nat
  supply_id : Option Nat := none
  priority : String
  due_date : String
deriving Repr

/-- The `CHECK (priority IN ('Low','Medium','High','Urgent'))` column
constraint of `inspector_tasks`. -/
def validPriority (p : String) : Bool :=
  p == "Low" || p == "Medium" || p == "High" || p == "Urgent"

/-- The task row `create_admin_task` inserts: `status` comes solely from
the column default `'pending'` — the INSERT names no status column. -/
def newTask (db : DB) (s : SessionInfo) (p : TaskPayload) (nowTs : Nat) : InspectorTask :=
  { id := db.next_task_id
    title := p.title
    description := p.description
    assigned_to_id := p.inspector_id
    supply_id := p.supply_id
    priority := p.priority
    due_date := p.due_date
    status := "pending"
    created_by_id := s.user_id
    created_at := nowTs
    updated_at := nowTs }

/-- `POST /api/admin/tasks` (`create_admin_task`): non-admin sessions get
403 before any SQL; a priority outside the CHECK list aborts the INSERT
(rolled back, 500, database unchanged); otherwise the row is inserted and
committed, after which the display query names the misspelled table
`wasamoter_supplies` and raises — so the handler answers 500 while the
committed task row persists with its default `'pending'` status. -/
def create_admin_task (db : DB) (sess : Option SessionInfo) (p : TaskPayload) (nowTs : Nat) :
    HttpResult × DB :=
  match sess with
  | none => (.failure 403, db)
  | some s =>
    if s.role ≠ "admin" then (.failure 403, db)
    else if ¬ validPriority p.priority then (.failure 500, db)
    else
      (.failure 500,
        { db with
          inspector_tasks := db.inspector_tasks ++ [newTask db s p nowTs]
          next_task_id := db.next_task_id + 1 })

/-- `POST /api/inspector/tasks/<id>/accept` (`accept_task`): one guarded
`UPDATE ... WHERE id = ? AND assigned_to_id = ?`, and the handler answers
`{'success': True}` no matter how many rows the UPDATE matched. -/
def accept_task (db : DB) (session_user : Option Nat) (task_id : Nat) (nowTs : Nat) :
    HttpResult × DB :=
  match session_user with
  | none => (.failure 401, db)
  | some uid =>
    (.success,
      { db with inspector_tasks := db.inspector_tasks.map (fun t =>
          if t.id == task_id && t.assigned_to_id == uid
          then { t with status := "accepted", updated_at := nowTs }
          else t) })

/-- Fixture task: id 1, assigned to inspector 1, pending. -/
def task1 : InspectorTask :=
  { id := 1, title := "Inspect tank", description := "", assigned_to_id := 1,
    supply_id := some 1, priority := "High", due_date := "2024-03-20",
    status := "pending", created_by_id := 2, created_at := 3, updated_at := 3 }

/-- Fixture database with `task1` pending. -/
def db2 : DB :=
  { users := [userInsp, userAdmin]
    water_supplies := [supplyX, supplyY]
    sampling_points := []
    inspection_submissions := []
    inspector_signatures := []
    inspector_tasks := [task1]
    next_submission_id := 1
    next_task_id := 2 }

/-- C5 counterexample: user 2 is not the assignee of task 1, yet the
accept endpoint answers success (HTTP 200, `{'success': True}`) instead of
failing with Forbidden — the task merely stays `pending`. -/
theorem task_accept_counterexample :
    task1.assigned_to_id ≠ 2 ∧
    (accept_task db2 (some 2) 1 9).1 = HttpResult.success ∧
    (accept_task db2 (some 2) 1 9).2.inspector_tasks = [task1] :=
  ⟨by decide, rfl, by decide⟩

/-- The task lifecycle the code actually implements: only admins can
create (403 otherwise, database unchanged); a created task is stored with
status `'pending'` (although the handler then answers 500, because its
post-insert display query names a misspelled table); accept always
answers success; an accept by the assignee sets the task's status to
`'accepted'`, and an accept by anyone else leaves every task row exactly
as it was. -/
def TaskLifecycleSpec (db : DB) (s : SessionInfo) (p : TaskPayload) (nowTs : Nat) : Prop :=
  (s.role ≠ "admin" → create_admin_task db (some s) p nowTs = (.failure 403, db)) ∧
  (s.role = "admin" → validPriority p.priority = true →
      (create_admin_task db (some s) p nowTs).2.inspector_tasks
          = db.inspector_tasks ++ [newTask db s p nowTs] ∧
      (newTask db s p nowTs).status = "pending") ∧
  (∀ uid tid, (accept_task db (some uid) tid nowTs).1 = .success) ∧
  (∀ uid tid t, t ∈ db.inspector_tasks → t.id = tid → t.assigned_to_id = uid →
      { t with status := "accepted", updated_at := nowTs }
        ∈ (accept_task db (some uid) tid nowTs).2.inspector_tasks) ∧
  (∀ uid tid t, t ∈ db.inspector_tasks → t.assigned_to_id ≠ uid →
      t ∈ (accept_task db (some uid) tid nowTs).2.inspector_tasks)

/-- C5 amended: creation is admin-gated and yields a stored task in state
`'pending'`; accept by the assignee moves it to `'accepted'`; accept by a
non-assignee is a silent no-op that still reports success, leaving the
state `'pending'` — it does not fail with Forbidden. -/
theorem task_lifecycle (db : DB) (s : SessionInfo) (p : TaskPayload) (nowTs : Nat) :
    TaskLifecycleSpec db s p nowTs := by
  refine ⟨?_, ?_, ?_, ?_, ?_⟩
  · intro h
    simp [create_admin_task, h]
  · intro hrole hpri
    constructor
    · simp [create_admin_task, hrole, hpri]
    · rfl
  · intro uid tid
    rfl
  · intro uid tid t ht hid hassn
    simp only [accept_task]
    refine List.mem_map.mpr ⟨t, ht, ?_⟩
    simp [hid, hassn]
  · intro uid tid t ht hne
    simp only [accept_task]
    refine List.mem_map.mpr ⟨t, ht, ?_⟩
    simp [hne]

theorem task_lifecycle_witness :
    TaskLifecycleSpec db2 ⟨2, "admin"⟩
      { title := "Inspect tank", inspector_id := 1, priority := "High",
        due_date := "2024-03-20" } 9 ∧
    TaskLifecycleSpec db2 ⟨1, "inspector"⟩
      { title := "Inspect tank", inspector_id := 1, priority := "High",
        due_date := "2024-03-20" } 9 :=
  ⟨task_lifecycle db2 ⟨2, "admin"⟩
      { title := "Inspect tank", inspector_id := 1, priority := "High",
        due_date := "2024-03-20" } 9,
   task_lifecycle db2 ⟨1, "inspector"⟩
      { title := "Inspect tank", inspector_id := 1, priority := "High",
        due_date := "2024-03-20" } 9⟩

/-- The sub-state rule C6 claims for every submission row: status
`'pending'` whenever tests are pending or no result has been recorded,
`'complete'` once some result exists and nothing is pending. -/
def bactSubStateOk (s : Submission) : Prop :=
  ((s.bacteriological_pending > 0 ∨
        s.bacteriological_positive + s.bacteriological_negative = 0) →
      s.bacteriological_status = "pending") ∧
  ((s.bacteriological_positive + s.bacteriological_negative > 0 ∧
        s.bacteriological_pending = 0) →
      s.bacteriological_status = "complete")

/-- The row `subA` becomes after the correction `{positiveAdd 2,
negativeAdd 3}`: all five pending samples resolved, yet the status column
was never touched. -/
def subA_corrected : Submission :=
  { subA with bacteriological_positive := 4, bacteriological_negative := 4, bacteriological_pending := 0 }

/-- C6 counterexample: a legal correction on `subA` resolves every pending
sample (positive 4, negative 4, pending 0), but `update_sample_results`
does not update `bacteriological_status`, so the row stays `'pending'`
where the rule demands `'complete'`. -/
theorem bact_substate_counterexample :
    find_submission (update_sample_results db0 (some 1) 1 2 3).2 1 = some subA_corrected ∧
    ¬ bactSubStateOk subA_corrected := by
  constructor
  · decide
  · rintro ⟨-, h2⟩
    have hc := h2 ⟨by decide, by decide⟩
    exact absurd hc (by decide)

/-- What the code actually guarantees about the sub-state rule: it is
established at creation time (the status computed by `submit_inspection`
satisfies it), but `update_sample_results` copies each row's
`bacteriological_status` through unchanged, so corrections can leave a
fully-resolved row still marked `'pending'`. -/
def BactSubStateAmendedSpec (db : DB) (uid sid : Nat) (p : InspectionPayload)
    (today : Date) (nowTs : Nat) (positive_add negative_add : Int) : Prop :=
  bactSubStateOk (newSubmission db uid sid p today nowTs) ∧
  (∀ s' ∈ (update_sample_results db (some uid) sid positive_add negative_add).2.inspection_submissions,
      ∃ s ∈ db.inspection_submissions, s'.bacteriological_status = s.bacteriological_status)

/-- C6 amended: the pending/complete rule holds for the row
`submit_inspection` creates, while the correction endpoint preserves the
stored status verbatim (it rewrites only positive, negative and pending),
so the rule is not re-established after corrections. -/
theorem bact_substate_amended (db : DB) (uid sid : Nat) (p : InspectionPayload)
    (today : Date) (nowTs : Nat) (positive_add negative_add : Int) :
    BactSubStateAmendedSpec db uid sid p today nowTs positive_add negative_add := by
  constructor
  · constructor
    · intro h
      have h' : p.bacteriological_pending > 0 ∨
          p.bacteriological_positive + p.bacteriological_negative = 0 := h
      show (if p.bacteriological_pending > 0 ∨
          p.bacteriological_positive + p.bacteriological_negative = 0
        then "pending" else "complete") = "pending"
      rw [if_pos h']
    · rintro ⟨h1, h2⟩
      have h1' : p.bacteriological_positive + p.bacteriological_negative > 0 := h1
      have h2' : p.bacteriological_pending = 0 := h2
      show (if p.bacteriological_pending > 0 ∨
          p.bacteriological_positive + p.bacteriological_negative = 0
        then "pending" else "complete") = "complete"
      rw [if_neg]
      rintro (hc | hc) <;> omega
  · intro s' hs'
    rcases hf : find_submission db sid with _ | sub
    · simp only [update_sample_results, hf] at hs'
      exact ⟨s', hs', rfl⟩
    · simp only [update_sample_results, hf] at hs'
      by_cases hown : sub.inspector_id ≠ uid
      · rw [if_pos hown] at hs'
        exact ⟨s', hs', rfl⟩
      · rw [if_neg hown] at hs'
        by_cases hgt : positive_add + negative_add > sub.bacteriological_pending
        · rw [if_pos hgt] at hs'
          exact ⟨s', hs', rfl⟩
        · rw [if_neg hgt] at hs'
          obtain ⟨s, hs, heq⟩ := List.mem_map.mp hs'
          refine ⟨s, hs, ?_⟩
          by_cases hid : (s.id == sid) = true
          · rw [← heq]
            simp [hid]
          · rw [← heq]
            simp [hid]

theorem bact_substate_amended_witness :
    BactSubStateAmendedSpec db0 1 1
      { supply_id := some 1, bacteriological_pending := 2 } ⟨2024, 3, 9⟩ 7 2 3 :=
  bact_substate_amended db0 1 1
    { supply_id := some 1, bacteriological_pending := 2 } ⟨2024, 3, 9⟩ 7 2 3

theorem tenancy_amended_witness : TenancySpec db1 := tenancy_amended db1
